import Mathlib

/-!
Verification of the real-time audio delivery pipeline of the infinite-mac
repository: the worker-side transports (`src/embed-types.ts`:
`SharedMemoryEmulatorWorkerAudio`, `FallbackEmulatorWorkerAudio`) and the
UI-side player (`src/emulator/ui/audio.ts`: `EmulatorAudio` and its two
subclasses).

Conventions of the embedding:
- Byte payloads (`Uint8Array`) are `List Nat` (oldest byte first).
- Timestamps (`performance.now()`) are natural numbers of milliseconds; the
  clock is monotone, so theorems assume `lastEstimateAt ≤ now`.
- JavaScript float arithmetic on buffered-milliseconds values is modelled
  over `ℚ`; no claim hinges on float rounding.
- Side effects (console warnings, delegate notifications, messages posted to
  the renderer) are reified as an explicit `Effect` list returned alongside
  the new state; ambient browser resources (interval timers, the window
  pointerdown listener) live in a `World` record threaded through the
  lifecycle operations.
-/

namespace InfiniteMacAudio

/-- Modelled from the spec: the `RingBuffer` class of the external ringbuf.js
library (the repository only uses it; its code is not part of the repository).
Per the spec's RingBufferHandle data model it is a fixed-capacity SPSC byte
queue over shared memory: `available_read` is the number of buffered bytes,
`available_write` the remaining room, `push` appends, `pop` removes from the
front in FIFO order, and the capacity is fixed at construction. -/
structure RingBuf where
  capacity : Nat
  data : List Nat
deriving Repr, DecidableEq

def RingBuf.availableRead (rb : RingBuf) : Nat :=
  rb.data.length

def RingBuf.availableWrite (rb : RingBuf) : Nat :=
  rb.capacity - rb.data.length

def RingBuf.push (rb : RingBuf) (bytes : List Nat) : RingBuf :=
  { rb with data := rb.data ++ bytes }

/-- FIFO read of `n` bytes: returns the bytes read (oldest first) and the
remaining buffer. Reading more than is buffered returns what is there. -/
def RingBuf.pop (rb : RingBuf) (n : Nat) : List Nat × RingBuf :=
  (rb.data.take n, { rb with data := rb.data.drop n })

def RingBuf.emptyBuf (cap : Nat) : RingBuf :=
  ⟨cap, []⟩

/-! ### Worker-side shared-memory transport
`SharedMemoryEmulatorWorkerAudio` in `src/embed-types.ts`. -/

/-- `SharedMemoryEmulatorWorkerAudio.audioBufferSize`: returns
`available_read()`. -/
def SharedMemoryEmulatorWorkerAudio.audioBufferSize (rb : RingBuf) : Nat :=
  rb.availableRead

/-- `SharedMemoryEmulatorWorkerAudio.enqueueAudio`: if the payload does not
fit in `available_write()`, warn and return without touching the buffer;
otherwise push the whole payload. The returned `Bool` is `true` when the
console warning was emitted. -/
def SharedMemoryEmulatorWorkerAudio.enqueueAudio (rb : RingBuf)
    (newAudio : List Nat) : RingBuf × Bool :=
  let availableWrite := rb.availableWrite
  if availableWrite < newAudio.length then
    (rb, true)
  else
    (rb.push newAudio, false)

/-! ### Worker-side fallback transport
`FallbackEmulatorWorkerAudio` in `src/embed-types.ts`. -/

/-- State of `FallbackEmulatorWorkerAudio`: assumed throughput, virtual
occupancy estimate, and the timestamp of the last estimate update. -/
structure FallbackEmulatorWorkerAudio where
  bytesPerSecond : Nat
  estimatedBufferedBytes : Nat
  lastEstimateAt : Nat
deriving Repr, DecidableEq

/-- Construction state: `#bytesPerSecond = 22050 * 2 * 4`,
`#estimatedBufferedBytes = 0`, `#lastEstimateAt = performance.now()`. -/
def FallbackEmulatorWorkerAudio.mk0 (now : Nat) : FallbackEmulatorWorkerAudio :=
  { bytesPerSecond := 22050 * 2 * 4
    estimatedBufferedBytes := 0
    lastEstimateAt := now }

/-- `FallbackEmulatorWorkerAudio.setAudioFormat`: recomputes
`bytesPerSecond = sampleRate * Math.max(1, sampleSize >> 3) * channels`,
adopting it only when finite and positive (over `Nat` the value is always
finite, so only positivity is checked). `sampleSize >> 3` is floor division
by 8. -/
def FallbackEmulatorWorkerAudio.setAudioFormat (s : FallbackEmulatorWorkerAudio)
    (sampleRate sampleSize channels : Nat) : FallbackEmulatorWorkerAudio :=
  let bytesPerSecond := sampleRate * Nat.max 1 (sampleSize >>> 3) * channels
  if 0 < bytesPerSecond then
    { s with bytesPerSecond := bytesPerSecond }
  else
    s

/-- `FallbackEmulatorWorkerAudio.#drainEstimate` at clock reading `now`:
records `now` as the last estimate time and, unless no time elapsed or the
estimate is already zero, subtracts `floor(bytesPerSecond * elapsedSeconds)`
from the estimate, clamped at zero (`Math.max(0, ...)` is `Nat`
subtraction). `elapsedSeconds = elapsedMs / 1000`, so the drained byte count
`Math.floor(bytesPerSecond * elapsedSeconds)` is
`bytesPerSecond * elapsedMs / 1000` in `Nat` arithmetic. -/
def FallbackEmulatorWorkerAudio.drainEstimate (s : FallbackEmulatorWorkerAudio)
    (now : Nat) : FallbackEmulatorWorkerAudio :=
  let elapsedMs := now - s.lastEstimateAt
  let s' := { s with lastEstimateAt := now }
  if elapsedMs = 0 ∨ s.estimatedBufferedBytes = 0 then
    s'
  else
    let drained := s.bytesPerSecond * elapsedMs / 1000
    { s' with estimatedBufferedBytes := s.estimatedBufferedBytes - drained }

/-- `FallbackEmulatorWorkerAudio.audioBufferSize`: drains the estimate, then
returns it. -/
def FallbackEmulatorWorkerAudio.audioBufferSize (s : FallbackEmulatorWorkerAudio)
    (now : Nat) : FallbackEmulatorWorkerAudio × Nat :=
  let s' := s.drainEstimate now
  (s', s'.estimatedBufferedBytes)

/-- `FallbackEmulatorWorkerAudio.enqueueAudio`: drains the estimate, sends a
copy of the payload to the consumer (the copy is returned as the second
component — value semantics make the copy literal), and adds the payload
length to the estimate. -/
def FallbackEmulatorWorkerAudio.enqueueAudio (s : FallbackEmulatorWorkerAudio)
    (now : Nat) (newAudio : List Nat) :
    FallbackEmulatorWorkerAudio × List Nat :=
  let s' := s.drainEstimate now
  let sent := newAudio
  ({ s' with estimatedBufferedBytes := s'.estimatedBufferedBytes + newAudio.length },
   sent)

/-! ### Operation sequences on the ring buffer (for the conservation
invariant): the producer enqueues through
`SharedMemoryEmulatorWorkerAudio.enqueueAudio`, the real-time consumer pops
bytes. -/

inductive RingOp where
  | enqueue (payload : List Nat)
  | read (n : Nat)
deriving Repr, DecidableEq

def RingOp.apply (op : RingOp) (rb : RingBuf) : RingBuf :=
  match op with
  | .enqueue payload => (SharedMemoryEmulatorWorkerAudio.enqueueAudio rb payload).1
  | .read n => (rb.pop n).2

def runRingOps (ops : List RingOp) (rb : RingBuf) : RingBuf :=
  ops.foldl (fun b op => op.apply b) rb

/-! ### UI-side player
`EmulatorAudio` and its subclasses `SharedMemoryEmulatorAudio` and
`FallbackEmulatorAudio` in `src/emulator/ui/audio.ts`. -/

/-- Transport tag, the `"shared" | "fallback"` union. -/
inductive TransportTag where
  | shared
  | fallback
deriving Repr, DecidableEq

/-- `AudioContext.state` values relevant to the code. -/
inductive CtxState where
  | running
  | suspended
  | closed
deriving Repr, DecidableEq

/-- The `AudioContext` object as the player sees it: its state and whether the
player attached a `statechange` listener to it. -/
structure AudioCtx where
  state : CtxState
  statechangeListener : Bool
deriving Repr, DecidableEq

/-- Ambient browser resources owned by the orchestration context: the set of
live interval timers (by id, with a fresh-id counter) and whether the
`pointerdown` window listener is installed. -/
structure World where
  activeIntervals : List Nat
  nextTimerId : Nat
  pointerListener : Bool
deriving Repr, DecidableEq

def World.setInterval (w : World) : Nat × World :=
  (w.nextTimerId,
   { w with
      activeIntervals := w.nextTimerId :: w.activeIntervals
      nextTimerId := w.nextTimerId + 1 })

def World.clearInterval (w : World) (id : Nat) : World :=
  { w with activeIntervals := w.activeIntervals.filter (fun i => i ≠ id) }

/-- The transport-specific extension point data: `SharedMemoryEmulatorAudio`
owns a ring buffer; `FallbackEmulatorAudio` owns no buffer on the UI side. -/
inductive TransportState where
  | shared (ring : RingBuf)
  | fallback
deriving Repr, DecidableEq

/-- The payload of an `emulatorAudioDidQueueStats` delegate notification. -/
structure QueueStats where
  bufferedMs : ℚ
  droppedChunks : Nat
  mode : TransportTag
deriving Repr, DecidableEq

/-- Observable side effects of the player: console warnings, delegate
notifications (delivered when a delegate registered the callback), input
events, and messages posted to the renderer. -/
inductive Effect where
  | warn (msg : String)
  | notifyOpen (sampleRate sampleSize channels : Nat)
  | notifyBlocked
  | notifyRunning
  | notifyQueueStats (stats : QueueStats)
  | inputAudioContextRunning
  | resumeAttempt
  | postResetToRenderer
  | addWorkletModule
deriving Repr, DecidableEq

/-- The private fields of `EmulatorAudio` (plus the subclass data in
`transport`). Interval-id fields keep the last id even after
`clearInterval`, as in the source, where `stop` clears the timers but does
not null the fields. -/
structure PlayerState where
  transport : TransportState
  sampleRate : Nat
  sampleSize : Nat
  channels : Nat
  activityBytes : Nat
  lastReportedBytesPerSecond : Nat
  audioRunning : Bool
  queueBufferedMs : ℚ
  queueDroppedChunks : Nat
  analyserPresent : Bool
  playbackNodePresent : Bool
  activityInterval : Option Nat
  probeInterval : Option Nat
  debugInterval : Option Nat
  ctx : Option AudioCtx
deriving Repr, DecidableEq

namespace EmulatorAudio

/-- `probeSource()`: the tag of the active transport. -/
def probeSource (s : PlayerState) : TransportTag :=
  match s.transport with
  | .shared _ => .shared
  | .fallback => .fallback

/-- `currentAudioBufferByteLength()`: `available_read()` of the ring buffer
for the shared transport, `0` for the fallback transport. -/
def currentAudioBufferByteLength (s : PlayerState) : Nat :=
  match s.transport with
  | .shared ring => ring.availableRead
  | .fallback => 0

/-- `resetAudioBuffer()`: the shared transport pops everything that is
readable out of the ring buffer; the fallback transport posts a reset
message to the renderer. -/
def resetAudioBuffer (s : PlayerState) : PlayerState × List Effect :=
  match s.transport with
  | .shared ring =>
      ({ s with transport := .shared (ring.pop ring.availableRead).2 }, [])
  | .fallback => (s, [.postResetToRenderer])

/-- `EmulatorAudio.#currentBufferedMs()`: converts the instantaneous buffer
occupancy to milliseconds via the declared format's
`bytesPerSecond = sampleRate * Math.max(1, sampleSize >> 3) * channels`,
returning 0 when no format is declared, nothing is buffered, or the rate is
not positive. -/
def currentBufferedMs (s : PlayerState) : ℚ :=
  if s.sampleRate = 0 ∨ s.sampleSize = 0 ∨ s.channels = 0 then 0
  else
    let bufferedBytes := currentAudioBufferByteLength s
    if bufferedBytes = 0 then 0
    else
      let bytesPerSecond := s.sampleRate * Nat.max 1 (s.sampleSize >>> 3) * s.channels
      if bytesPerSecond = 0 then 0
      else ((bufferedBytes : ℚ) / (bytesPerSecond : ℚ)) * 1000

/-- `EmulatorAudio.flush()`: computes the dropped-audio estimate (the last
renderer-reported `#queueBufferedMs` for the fallback transport,
`#currentBufferedMs()` for the shared transport), resets the audio buffer,
zeroes `#queueBufferedMs`, emits a queue-stats notification with
`bufferedMs: 0` and the untouched `#queueDroppedChunks`, and returns
`Math.max(0, droppedAudioMs)`. -/
def flush (s : PlayerState) : PlayerState × ℚ × List Effect :=
  let droppedAudioMs :=
    if probeSource s = .fallback then s.queueBufferedMs else currentBufferedMs s
  let (s', resetEffects) := resetAudioBuffer s
  let s'' := { s' with queueBufferedMs := 0 }
  (s'',
   max 0 droppedAudioMs,
   resetEffects ++
     [.notifyQueueStats
        { bufferedMs := 0
          droppedChunks := s''.queueDroppedChunks
          mode := probeSource s'' }])

/-- `EmulatorAudio.stop()`: closes the audio context (the field keeps the
closed context), removes the `pointerdown` listener, clears whichever
interval timers were registered, and resets the running flag, activity
accumulator, last reported rate, queue stats, format fields and the
analyser tap. -/
def stop (s : PlayerState) (w : World) : PlayerState × World :=
  let s₁ := { s with ctx := s.ctx.map (fun (c : AudioCtx) => { c with state := .closed }) }
  let w₁ := { w with pointerListener := false }
  let w₂ := match s₁.activityInterval with
    | some id => w₁.clearInterval id
    | none => w₁
  let w₃ := match s₁.probeInterval with
    | some id => w₂.clearInterval id
    | none => w₂
  let w₄ := match s₁.debugInterval with
    | some id => w₃.clearInterval id
    | none => w₃
  ({ s₁ with
      audioRunning := false
      activityBytes := 0
      lastReportedBytesPerSecond := 0
      queueBufferedMs := 0
      queueDroppedChunks := 0
      sampleRate := 0
      sampleSize := 0
      channels := 0
      analyserPresent := false },
   w₄)

end EmulatorAudio

/-- A JavaScript number as produced by `Number(...)`: either a finite value
(modelled over `ℚ`) or one of the non-finite values `NaN`, `Infinity`,
`-Infinity`. -/
inductive JSNum where
  | num (q : ℚ)
  | nan
  | posInf
  | negInf
deriving Repr, DecidableEq

/-- `Number.isFinite`. -/
def JSNum.isFinite : JSNum → Bool
  | .num _ => true
  | _ => false

/-- `Math.round` on a finite value: round half toward positive infinity. -/
def jsRound (q : ℚ) : ℤ :=
  ⌊q + 1 / 2⌋

/-- A message arriving on `emulatorPlaybackNode.port` from the renderer, with
its fields already passed through `Number(...)`. -/
structure RendererMessage where
  type : String
  bufferedMs : JSNum
  droppedChunks : JSNum
deriving Repr, DecidableEq

namespace EmulatorAudio

/-- The `port.onmessage` handler installed by `init`: ignores messages that
are not queue-stats; discards queue-stats whose `bufferedMs` or
`droppedChunks` is not a finite number; otherwise stores
`Math.max(0, bufferedMs)` and `Math.max(0, Math.round(droppedChunks))` and
relays a queue-stats notification tagged with the active transport. -/
def onQueueStatsMessage (s : PlayerState) (msg : RendererMessage) :
    PlayerState × List Effect :=
  if msg.type ≠ "queue-stats" then (s, [])
  else
    match msg.bufferedMs, msg.droppedChunks with
    | .num bufferedMs, .num droppedChunks =>
        let s' := { s with
          queueBufferedMs := max 0 bufferedMs
          queueDroppedChunks := (max 0 (jsRound droppedChunks)).toNat }
        (s',
         [.notifyQueueStats
            { bufferedMs := s'.queueBufferedMs
              droppedChunks := s'.queueDroppedChunks
              mode := probeSource s' }])
    | _, _ => (s, [])

/-- The platform environment `init` runs against: whether `AudioContext` and
`AudioWorklet` exist, the state a freshly created context reports, and which
optional delegate callbacks the host registered (they gate the telemetry
timers). -/
structure Env where
  audioContextSupported : Bool
  audioWorkletSupported : Bool
  contextInitialState : CtxState
  hasActivityDelegate : Bool
  hasProbeDelegate : Bool
deriving Repr, DecidableEq

/-- `EmulatorAudio.#handleAudioContextRunning()`: once per session, marks the
player running, resets the audio buffer, signals the emulator input and the
delegate, and registers the activity and probe interval timers when the
delegate registered interest in them. -/
def handleAudioContextRunning (env : Env) (s : PlayerState) (w : World) :
    PlayerState × World × List Effect :=
  if s.audioRunning then (s, w, [])
  else
    let s₁ := { s with audioRunning := true }
    let (s₂, resetEffects) := resetAudioBuffer s₁
    let effects := resetEffects ++ [.inputAudioContextRunning, .notifyRunning]
    let (s₃, w₁) :=
      if env.hasActivityDelegate || env.hasProbeDelegate then
        let (id, w') := w.setInterval
        ({ s₂ with activityInterval := some id }, w')
      else (s₂, w)
    let (s₄, w₂) :=
      if env.hasProbeDelegate then
        let (id, w') := w₁.setInterval
        ({ s₃ with probeInterval := some id }, w')
      else (s₃, w₁)
    (s₄, w₂, effects)

/-- `EmulatorAudio.init(sampleRate, sampleSize, channels, debug)` up to its
return (the later event-driven statechange/timeout steps are separate
handlers). With no `AudioContext` support it warns and returns at once.
Otherwise it tears down any previous session, notifies the delegate of the
open, records the format, creates a context, and — when `AudioWorklet` is
supported — loads the worklet module, creates the playback node and the
analyser tap, and either starts the activation handshake (suspended
context: pointer listener, blocked notification, statechange listener, an
immediate resume attempt) or runs immediately; a debug flag adds the debug
interval timer. -/
def init (env : Env) (sampleRate sampleSize channels : Nat) (debug : Bool)
    (s : PlayerState) (w : World) : PlayerState × World × List Effect :=
  if ¬env.audioContextSupported then
    (s, w, [.warn "AudioContext not supported"])
  else
    let (s₁, w₁, teardownEffects) :=
      if s.ctx.isSome then
        let (s', w') := stop s w
        let (s'', effects) := resetAudioBuffer s'
        (s'', w', effects)
      else (s, w, [])
    let openEffects := teardownEffects ++ [.notifyOpen sampleRate sampleSize channels]
    let s₂ := { s₁ with
      sampleRate := sampleRate
      sampleSize := sampleSize
      channels := channels
      ctx := some { state := env.contextInitialState, statechangeListener := false } }
    if ¬env.audioWorkletSupported then
      (s₂, w₁, openEffects ++ [.warn "AudioWorklet not supported"])
    else
      let moduleEffects := openEffects ++ [.addWorkletModule]
      let s₃ := { s₂ with playbackNodePresent := true, analyserPresent := true }
      let (s₄, w₂, stateEffects) :=
        if env.contextInitialState = .suspended then
          let w' := { w₁ with pointerListener := true }
          let s' := { s₃ with
            ctx := some { state := env.contextInitialState, statechangeListener := true } }
          (s', w', [Effect.notifyBlocked, Effect.resumeAttempt])
        else
          handleAudioContextRunning env s₃ w₁
      let (s₅, w₃) :=
        if debug then
          let (id, w') := w₂.setInterval
          ({ s₄ with debugInterval := some id }, w')
        else (s₄, w₂)
      (s₅, w₃, moduleEffects ++ stateEffects)

end EmulatorAudio

/-! ## Theorems -/

/-- Helper: every ring-buffer operation preserves the occupancy bound and the
capacity. -/
theorem RingOp.apply_inv (op : RingOp) (rb : RingBuf)
    (h : rb.data.length ≤ rb.capacity) :
    (op.apply rb).data.length ≤ (op.apply rb).capacity ∧
      (op.apply rb).capacity = rb.capacity := by
  obtain ⟨cap, data⟩ := rb
  cases op with
  | enqueue payload =>
      simp only [RingOp.apply, SharedMemoryEmulatorWorkerAudio.enqueueAudio,
        RingBuf.availableWrite, RingBuf.push] at h ⊢
      split
      · exact ⟨h, rfl⟩
      · rename_i hfit
        simp only [List.length_append] at *
        exact ⟨by omega, trivial⟩
  | read n =>
      simp only [RingOp.apply, RingBuf.pop, List.length_drop] at h ⊢
      exact ⟨by omega, trivial⟩

/-- Helper: running a sequence of ring-buffer operations preserves the
occupancy bound and the capacity. -/
theorem runRingOps_inv (ops : List RingOp) (rb : RingBuf)
    (h : rb.data.length ≤ rb.capacity) :
    (runRingOps ops rb).data.length ≤ (runRingOps ops rb).capacity ∧
      (runRingOps ops rb).capacity = rb.capacity := by
  induction ops generalizing rb with
  | nil => exact ⟨h, rfl⟩
  | cons op ops ih =>
      have hop := op.apply_inv rb h
      have := ih (op.apply rb) hop.1
      simp only [runRingOps, List.foldl_cons] at *
      exact ⟨this.1, this.2.trans hop.2⟩

/-- C1: for every payload `P` with `len(P) > available_write()`, the
shared-memory transport's `enqueueAudio(P)` leaves the ring buffer completely
unchanged (no partial write), surfaces the console warning, and returns (it
is a total function — no blocking, no exception). -/
theorem C1_enqueueAudio_overflow_rejected (rb : RingBuf) (P : List Nat)
    (h : rb.availableWrite < P.length) :
    SharedMemoryEmulatorWorkerAudio.enqueueAudio rb P = (rb, true) := by
  simp [SharedMemoryEmulatorWorkerAudio.enqueueAudio, h]

/-- Witness for C1: a buffer with 2 bytes of room rejects a 3-byte payload
untouched. -/
theorem C1_enqueueAudio_overflow_rejected_witness :
    RingBuf.availableWrite ⟨4, [1, 2]⟩ < ([5, 6, 7] : List Nat).length ∧
      SharedMemoryEmulatorWorkerAudio.enqueueAudio ⟨4, [1, 2]⟩ [5, 6, 7] =
        (⟨4, [1, 2]⟩, true) :=
  ⟨by decide, C1_enqueueAudio_overflow_rejected ⟨4, [1, 2]⟩ [5, 6, 7] (by decide)⟩

set_option maxRecDepth 8000 in
/-- C2: for every payload `P` with `len(P) ≤ available_write()`,
`enqueueAudio(P)` succeeds without warning and increases `available_read()`
by exactly `len(P)`; the buffer behind it is FIFO, so after first reading the
bytes that were already buffered, reading the next `len(P)` bytes returns `P`
unchanged and in order. Moreover, in the concrete scenario of a 250-byte
buffer receiving three 100-byte payloads with no draining, the first two
succeed leaving `available_read() = 200` and the third is rejected entirely
with `available_read()` still 200. -/
theorem C2_enqueueAudio_fits (rb : RingBuf) (P : List Nat)
    (h : P.length ≤ rb.availableWrite) :
    (SharedMemoryEmulatorWorkerAudio.enqueueAudio rb P).1.availableRead =
        rb.availableRead + P.length ∧
      (SharedMemoryEmulatorWorkerAudio.enqueueAudio rb P).2 = false ∧
      ((((SharedMemoryEmulatorWorkerAudio.enqueueAudio rb P).1.pop
            rb.availableRead).2).pop P.length).1 = P ∧
      ((runRingOps [.enqueue (List.replicate 100 1)] (RingBuf.emptyBuf 250)).availableRead = 100 ∧
        (runRingOps [.enqueue (List.replicate 100 1), .enqueue (List.replicate 100 2)]
            (RingBuf.emptyBuf 250)).availableRead = 200 ∧
        SharedMemoryEmulatorWorkerAudio.enqueueAudio
            (runRingOps [.enqueue (List.replicate 100 1), .enqueue (List.replicate 100 2)]
              (RingBuf.emptyBuf 250)) (List.replicate 100 3) =
          (runRingOps [.enqueue (List.replicate 100 1), .enqueue (List.replicate 100 2)]
              (RingBuf.emptyBuf 250), true)) := by
  have hfit : ¬rb.availableWrite < P.length := Nat.not_lt.mpr h
  refine ⟨?_, ?_, ?_, by decide⟩
  · simp [SharedMemoryEmulatorWorkerAudio.enqueueAudio, hfit, RingBuf.push,
      RingBuf.availableRead]
  · simp [SharedMemoryEmulatorWorkerAudio.enqueueAudio, hfit]
  · simp [SharedMemoryEmulatorWorkerAudio.enqueueAudio, hfit, RingBuf.push,
      RingBuf.pop, RingBuf.availableRead, List.drop_left]

/-- Witness for C2: a buffer holding `[9]` with room for 4 more accepts
`[1, 2]`; occupancy goes from 1 to 3 and reading past the old byte returns
`[1, 2]`. -/
theorem C2_enqueueAudio_fits_witness :
    ([1, 2] : List Nat).length ≤ RingBuf.availableWrite ⟨5, [9]⟩ ∧
      ((SharedMemoryEmulatorWorkerAudio.enqueueAudio ⟨5, [9]⟩ [1, 2]).1.availableRead =
          RingBuf.availableRead ⟨5, [9]⟩ + ([1, 2] : List Nat).length ∧
        (SharedMemoryEmulatorWorkerAudio.enqueueAudio ⟨5, [9]⟩ [1, 2]).2 = false ∧
        ((((SharedMemoryEmulatorWorkerAudio.enqueueAudio ⟨5, [9]⟩ [1, 2]).1.pop
              (RingBuf.availableRead ⟨5, [9]⟩)).2).pop ([1, 2] : List Nat).length).1 =
          [1, 2] ∧
        ((runRingOps [.enqueue (List.replicate 100 1)] (RingBuf.emptyBuf 250)).availableRead = 100 ∧
          (runRingOps [.enqueue (List.replicate 100 1), .enqueue (List.replicate 100 2)]
              (RingBuf.emptyBuf 250)).availableRead = 200 ∧
          SharedMemoryEmulatorWorkerAudio.enqueueAudio
              (runRingOps [.enqueue (List.replicate 100 1), .enqueue (List.replicate 100 2)]
                (RingBuf.emptyBuf 250)) (List.replicate 100 3) =
            (runRingOps [.enqueue (List.replicate 100 1), .enqueue (List.replicate 100 2)]
                (RingBuf.emptyBuf 250), true))) :=
  ⟨by decide, C2_enqueueAudio_fits ⟨5, [9]⟩ [1, 2] (by decide)⟩

/-- C6: for every sequence of enqueue and read operations starting from a
freshly constructed ring buffer, `available_read() + available_write()`
equals the capacity at every observation point, and the capacity is the one
fixed at construction (the buffer is never resized). -/
theorem C6_ring_conservation (ops : List RingOp) (cap : Nat) :
    (runRingOps ops (RingBuf.emptyBuf cap)).availableRead +
        (runRingOps ops (RingBuf.emptyBuf cap)).availableWrite = cap ∧
      (runRingOps ops (RingBuf.emptyBuf cap)).capacity = cap := by
  have h := runRingOps_inv ops (RingBuf.emptyBuf cap) (by simp [RingBuf.emptyBuf])
  simp only [RingBuf.emptyBuf] at h ⊢
  refine ⟨?_, h.2⟩
  simp only [RingBuf.availableRead, RingBuf.availableWrite]
  omega

/-- Helper: closed form of `#drainEstimate` — it stamps the clock and applies
the clamped drain formula (the guard's early-out cases coincide with the
formula). -/
theorem drainEstimate_eq (s : FallbackEmulatorWorkerAudio) (now : Nat) :
    s.drainEstimate now =
      { bytesPerSecond := s.bytesPerSecond
        estimatedBufferedBytes :=
          s.estimatedBufferedBytes -
            s.bytesPerSecond * (now - s.lastEstimateAt) / 1000
        lastEstimateAt := now } := by
  obtain ⟨B, est, last⟩ := s
  simp only [FallbackEmulatorWorkerAudio.drainEstimate]
  split
  · rename_i h0
    rcases h0 with h0 | h0
    · rw [h0]
      simp
    · rw [h0]
      simp
  · rfl

/-- C3: for every fallback-transport state with rate `bytesPerSecond = B`
and a monotone clock, both the occupancy query (`audioBufferSize`) and
`enqueueAudio` first drain the estimate by `floor(B * elapsedSeconds)` since
the last estimate — clamped at zero, so it is never negative — and stamp the
current time; `enqueueAudio` then adds `len(P)` to the drained estimate and
hands the consumer a copy of `P`. -/
theorem C3_fallback_drain (s : FallbackEmulatorWorkerAudio) (now : Nat)
    (P : List Nat) (h : s.lastEstimateAt ≤ now) :
    ((s.audioBufferSize now).1.estimatedBufferedBytes : ℤ) =
        max 0 ((s.estimatedBufferedBytes : ℤ) -
          ((s.bytesPerSecond * (now - s.lastEstimateAt) / 1000 : Nat) : ℤ)) ∧
      (s.audioBufferSize now).2 = (s.audioBufferSize now).1.estimatedBufferedBytes ∧
      (s.audioBufferSize now).1.lastEstimateAt = now ∧
      (s.enqueueAudio now P).1.estimatedBufferedBytes =
        (s.audioBufferSize now).1.estimatedBufferedBytes + P.length ∧
      (s.enqueueAudio now P).1.lastEstimateAt = now ∧
      (s.enqueueAudio now P).2 = P := by
  simp only [FallbackEmulatorWorkerAudio.audioBufferSize,
    FallbackEmulatorWorkerAudio.enqueueAudio, drainEstimate_eq]
  refine ⟨?_, ?_, ?_, ?_, ?_, ?_⟩
  all_goals try trivial
  generalize s.bytesPerSecond * (now - s.lastEstimateAt) / 1000 = d
  omega

/-- Witness for C3: with `B = 1000`, estimate 300 bytes and 200 ms elapsed,
the query drains `floor(1000 * 0.2) = 200` bytes down to 100, and an enqueue
of 50 bytes lands at 150. -/
theorem C3_fallback_drain_witness :
    FallbackEmulatorWorkerAudio.lastEstimateAt ⟨1000, 300, 500⟩ ≤ 700 ∧
      (((FallbackEmulatorWorkerAudio.audioBufferSize ⟨1000, 300, 500⟩ 700).1.estimatedBufferedBytes : ℤ) =
          max 0 ((FallbackEmulatorWorkerAudio.estimatedBufferedBytes ⟨1000, 300, 500⟩ : ℤ) -
            ((FallbackEmulatorWorkerAudio.bytesPerSecond ⟨1000, 300, 500⟩ *
                (700 - FallbackEmulatorWorkerAudio.lastEstimateAt ⟨1000, 300, 500⟩) / 1000 : Nat) : ℤ)) ∧
        (FallbackEmulatorWorkerAudio.audioBufferSize ⟨1000, 300, 500⟩ 700).2 =
          (FallbackEmulatorWorkerAudio.audioBufferSize ⟨1000, 300, 500⟩ 700).1.estimatedBufferedBytes ∧
        (FallbackEmulatorWorkerAudio.audioBufferSize ⟨1000, 300, 500⟩ 700).1.lastEstimateAt = 700 ∧
        (FallbackEmulatorWorkerAudio.enqueueAudio ⟨1000, 300, 500⟩ 700
            (List.replicate 50 0)).1.estimatedBufferedBytes =
          (FallbackEmulatorWorkerAudio.audioBufferSize ⟨1000, 300, 500⟩ 700).1.estimatedBufferedBytes +
            (List.replicate 50 (0 : Nat)).length ∧
        (FallbackEmulatorWorkerAudio.enqueueAudio ⟨1000, 300, 500⟩ 700
            (List.replicate 50 0)).1.lastEstimateAt = 700 ∧
        (FallbackEmulatorWorkerAudio.enqueueAudio ⟨1000, 300, 500⟩ 700
            (List.replicate 50 0)).2 = List.replicate 50 0) :=
  ⟨by decide, C3_fallback_drain ⟨1000, 300, 500⟩ 700 (List.replicate 50 0) (by decide)⟩

/-- C5: for positive-integer format parameters, `setAudioFormat` sets the
fallback estimator's rate to
`bytesPerSecond = sampleRate * max(1, sampleSizeBits / 8) * channels` (the
source's `sampleSize >> 3` is floor division by 8); `setAudioFormat(44100,
16, 2)` yields 176400; and before any declaration the construction default
is `22050 * 2 * 4 = 176400` bytes per second. -/
theorem C5_setAudioFormat (s : FallbackEmulatorWorkerAudio) (t : Nat)
    (sampleRate sampleSize channels : Nat)
    (h1 : 0 < sampleRate) (h2 : 0 < sampleSize) (h3 : 0 < channels) :
    (s.setAudioFormat sampleRate sampleSize channels).bytesPerSecond =
        sampleRate * Nat.max 1 (sampleSize / 8) * channels ∧
      (FallbackEmulatorWorkerAudio.mk0 t).bytesPerSecond = 22050 * 2 * 4 ∧
      (FallbackEmulatorWorkerAudio.mk0 t).bytesPerSecond = 176400 ∧
      (s.setAudioFormat 44100 16 2).bytesPerSecond = 176400 := by
  have hshift : ∀ n : Nat, n >>> 3 = n / 8 := by
    intro n
    rw [Nat.shiftRight_eq_div_pow]
  have hpos : 0 < sampleRate * Nat.max 1 (sampleSize >>> 3) * channels :=
    Nat.mul_pos
      (Nat.mul_pos h1 (Nat.lt_of_lt_of_le Nat.zero_lt_one (Nat.le_max_left 1 _)))
      h3
  have hpos' : 0 < sampleRate * Nat.max 1 (sampleSize / 8) * channels := by
    simpa only [hshift] using hpos
  refine ⟨?_, rfl, rfl, ?_⟩
  · simp only [FallbackEmulatorWorkerAudio.setAudioFormat, hshift, if_pos hpos']
  · simp only [FallbackEmulatorWorkerAudio.setAudioFormat]
    rw [if_pos (by decide)]
    exact (by decide : 44100 * Nat.max 1 (16 >>> 3) * 2 = 176400)

/-- Witness for C5: applied to the construction-default state with format
44100 Hz, 16-bit, stereo. -/
theorem C5_setAudioFormat_witness :
    0 < 44100 ∧ 0 < 16 ∧ 0 < 2 ∧
      (((FallbackEmulatorWorkerAudio.mk0 0).setAudioFormat 44100 16 2).bytesPerSecond =
          44100 * Nat.max 1 (16 / 8) * 2 ∧
        (FallbackEmulatorWorkerAudio.mk0 0).bytesPerSecond = 22050 * 2 * 4 ∧
        (FallbackEmulatorWorkerAudio.mk0 0).bytesPerSecond = 176400 ∧
        ((FallbackEmulatorWorkerAudio.mk0 0).setAudioFormat 44100 16 2).bytesPerSecond = 176400) :=
  ⟨by decide, by decide, by decide,
    C5_setAudioFormat (FallbackEmulatorWorkerAudio.mk0 0) 0 44100 16 2
      (by decide) (by decide) (by decide)⟩

/-- C7: for every queue-stats message from the renderer, if `bufferedMs` or
`droppedChunks` is not a finite number the message is discarded with no state
change and no notification; otherwise both values are clamped to be
non-negative (`droppedChunks` additionally rounded to an integer, as in the
source) and a queue-stats notification tagged with the active transport is
relayed. -/
theorem C7_queue_stats_validation (s : PlayerState) (msg : RendererMessage)
    (htype : msg.type = "queue-stats") :
    (¬(msg.bufferedMs.isFinite = true ∧ msg.droppedChunks.isFinite = true) →
        EmulatorAudio.onQueueStatsMessage s msg = (s, [])) ∧
      (∀ b d : ℚ, msg.bufferedMs = .num b → msg.droppedChunks = .num d →
        EmulatorAudio.onQueueStatsMessage s msg =
            ({ s with
                queueBufferedMs := max 0 b
                queueDroppedChunks := (max 0 (jsRound d)).toNat },
             [.notifyQueueStats
                { bufferedMs := max 0 b
                  droppedChunks := (max 0 (jsRound d)).toNat
                  mode := EmulatorAudio.probeSource s }]) ∧
          0 ≤ max 0 b) := by
  obtain ⟨ty, bm, dc⟩ := msg
  simp only at htype
  subst htype
  cases bm <;> cases dc <;>
    simp [EmulatorAudio.onQueueStatsMessage, JSNum.isFinite,
      EmulatorAudio.probeSource, le_max_left]

/-- Witness for C7: a finite message with negative values is clamped and
relayed; the same state with a NaN `bufferedMs` is handled by the same
theorem's discard clause. -/
theorem C7_queue_stats_validation_witness :
    RendererMessage.type ⟨"queue-stats", .num (-3), .num (5/2)⟩ = "queue-stats" ∧
      ((¬(JSNum.isFinite (.num (-3)) = true ∧ JSNum.isFinite (.num (5/2)) = true) →
          EmulatorAudio.onQueueStatsMessage
              { transport := .fallback, sampleRate := 44100, sampleSize := 16,
                channels := 2, activityBytes := 0, lastReportedBytesPerSecond := 0,
                audioRunning := true, queueBufferedMs := 7, queueDroppedChunks := 1,
                analyserPresent := true, playbackNodePresent := true,
                activityInterval := none, probeInterval := none, debugInterval := none,
                ctx := none }
              ⟨"queue-stats", .num (-3), .num (5/2)⟩ =
            ({ transport := .fallback, sampleRate := 44100, sampleSize := 16,
               channels := 2, activityBytes := 0, lastReportedBytesPerSecond := 0,
               audioRunning := true, queueBufferedMs := 7, queueDroppedChunks := 1,
               analyserPresent := true, playbackNodePresent := true,
               activityInterval := none, probeInterval := none, debugInterval := none,
               ctx := none }, [])) ∧
        (∀ b d : ℚ, JSNum.num (-3) = .num b → JSNum.num (5/2) = .num d →
          EmulatorAudio.onQueueStatsMessage
              { transport := .fallback, sampleRate := 44100, sampleSize := 16,
                channels := 2, activityBytes := 0, lastReportedBytesPerSecond := 0,
                audioRunning := true, queueBufferedMs := 7, queueDroppedChunks := 1,
                analyserPresent := true, playbackNodePresent := true,
                activityInterval := none, probeInterval := none, debugInterval := none,
                ctx := none }
              ⟨"queue-stats", .num (-3), .num (5/2)⟩ =
              ({ transport := .fallback, sampleRate := 44100, sampleSize := 16,
                 channels := 2, activityBytes := 0, lastReportedBytesPerSecond := 0,
                 audioRunning := true, queueBufferedMs := max 0 b,
                 queueDroppedChunks := (max 0 (jsRound d)).toNat,
                 analyserPresent := true, playbackNodePresent := true,
                 activityInterval := none, probeInterval := none, debugInterval := none,
                 ctx := none },
               [.notifyQueueStats
                  { bufferedMs := max 0 b
                    droppedChunks := (max 0 (jsRound d)).toNat
                    mode := .fallback }]) ∧
            0 ≤ max 0 b)) :=
  ⟨rfl,
    C7_queue_stats_validation
      { transport := .fallback, sampleRate := 44100, sampleSize := 16,
        channels := 2, activityBytes := 0, lastReportedBytesPerSecond := 0,
        audioRunning := true, queueBufferedMs := 7, queueDroppedChunks := 1,
        analyserPresent := true, playbackNodePresent := true,
        activityInterval := none, probeInterval := none, debugInterval := none,
        ctx := none }
      ⟨"queue-stats", .num (-3), .num (5/2)⟩ rfl⟩

/-- C8: for every format arguments, `init` in an environment without real-time
audio support (`AudioContext` undefined) returns at once with only the
console warning: the player state and the ambient world (timers, listeners)
are completely unchanged. -/
theorem C8_init_unsupported (env : EmulatorAudio.Env)
    (sampleRate sampleSize channels : Nat) (debug : Bool)
    (s : PlayerState) (w : World)
    (h : env.audioContextSupported = false) :
    EmulatorAudio.init env sampleRate sampleSize channels debug s w =
      (s, w, [.warn "AudioContext not supported"]) := by
  simp [EmulatorAudio.init, h]

/-- Witness for C8: a concrete unsupported environment with the spec's
`init(44100, 16, 2, false)` call on a fresh player. -/
theorem C8_init_unsupported_witness :
    EmulatorAudio.Env.audioContextSupported
        ⟨false, false, .running, false, false⟩ = false ∧
      EmulatorAudio.init ⟨false, false, .running, false, false⟩ 44100 16 2 false
          { transport := .fallback, sampleRate := 0, sampleSize := 0, channels := 0,
            activityBytes := 0, lastReportedBytesPerSecond := 0, audioRunning := false,
            queueBufferedMs := 0, queueDroppedChunks := 0, analyserPresent := false,
            playbackNodePresent := false, activityInterval := none,
            probeInterval := none, debugInterval := none, ctx := none }
          ⟨[], 0, false⟩ =
        ({ transport := .fallback, sampleRate := 0, sampleSize := 0, channels := 0,
           activityBytes := 0, lastReportedBytesPerSecond := 0, audioRunning := false,
           queueBufferedMs := 0, queueDroppedChunks := 0, analyserPresent := false,
           playbackNodePresent := false, activityInterval := none,
           probeInterval := none, debugInterval := none, ctx := none },
         ⟨[], 0, false⟩, [.warn "AudioContext not supported"]) :=
  ⟨rfl,
    C8_init_unsupported ⟨false, false, .running, false, false⟩ 44100 16 2 false
      { transport := .fallback, sampleRate := 0, sampleSize := 0, channels := 0,
        activityBytes := 0, lastReportedBytesPerSecond := 0, audioRunning := false,
        queueBufferedMs := 0, queueDroppedChunks := 0, analyserPresent := false,
        playbackNodePresent := false, activityInterval := none,
        probeInterval := none, debugInterval := none, ctx := none }
      ⟨[], 0, false⟩ rfl⟩

/-- The interval-timer ids a player holds (activity, probe, debug). -/
def playerIntervalIds (s : PlayerState) : List Nat :=
  s.activityInterval.toList ++ s.probeInterval.toList ++ s.debugInterval.toList

/-- Helper: Boolean conjunction absorbs a duplicated left factor. -/
theorem bool_and_self_left (a b : Bool) : (a && (a && b)) = (a && b) := by
  cases a <;> cases b <;> rfl

/-- Helper: `stop` is idempotent on the combined player/world state. -/
theorem stop_stop (s : PlayerState) (w : World) :
    EmulatorAudio.stop (EmulatorAudio.stop s w).1 (EmulatorAudio.stop s w).2 =
      EmulatorAudio.stop s w := by
  obtain ⟨l, n, pl⟩ := w
  obtain ⟨tr, sr, ss, ch, ab, lr, ar, qb, qd, anp, pnp, ai, pi, di, cx⟩ := s
  cases ai <;> cases pi <;> cases di <;> cases cx <;>
    simp [EmulatorAudio.stop, World.clearInterval, List.filter_filter,
      Bool.and_self, bool_and_self_left, Bool.and_assoc, Bool.and_comm,
      Bool.and_left_comm]

/-- Helper: after `stop`, none of the player's interval timers is live. -/
theorem stop_clears_intervals (s : PlayerState) (w : World) :
    ∀ id ∈ playerIntervalIds s,
      id ∉ (EmulatorAudio.stop s w).2.activeIntervals := by
  obtain ⟨l, n, pl⟩ := w
  obtain ⟨tr, sr, ss, ch, ab, lr, ar, qb, qd, anp, pnp, ai, pi, di, cx⟩ := s
  cases ai <;> cases pi <;> cases di <;>
    simp [EmulatorAudio.stop, World.clearInterval, playerIntervalIds,
      List.mem_filter]

/-- Helper: the counter, format, tap, context and listener effects of one
`stop` call. -/
theorem stop_resets (s : PlayerState) (w : World) :
    (EmulatorAudio.stop s w).1.audioRunning = false ∧
      (EmulatorAudio.stop s w).1.activityBytes = 0 ∧
      (EmulatorAudio.stop s w).1.lastReportedBytesPerSecond = 0 ∧
      (EmulatorAudio.stop s w).1.queueBufferedMs = 0 ∧
      (EmulatorAudio.stop s w).1.queueDroppedChunks = 0 ∧
      (EmulatorAudio.stop s w).1.sampleRate = 0 ∧
      (EmulatorAudio.stop s w).1.sampleSize = 0 ∧
      (EmulatorAudio.stop s w).1.channels = 0 ∧
      (EmulatorAudio.stop s w).1.analyserPresent = false ∧
      (∀ c, c ∈ (EmulatorAudio.stop s w).1.ctx → c.state = .closed) ∧
      (EmulatorAudio.stop s w).2.pointerListener = false := by
  obtain ⟨l, n, pl⟩ := w
  obtain ⟨tr, sr, ss, ch, ab, lr, ar, qb, qd, anp, pnp, ai, pi, di, cx⟩ := s
  cases ai <;> cases pi <;> cases di <;> cases cx <;>
    simp [EmulatorAudio.stop, World.clearInterval, Option.mem_def]

/-- C9: `stop()` is idempotent — a second call produces no additional change
to the player state or the ambient world — and after it the activity
accumulator, last-reported rate, queue stats and format fields are reset, the
probe tap is cleared, the audio context is closed, the `pointerdown` listener
is removed, and none of the player's interval timers is live. -/
theorem C9_stop_idempotent (s : PlayerState) (w : World) :
    EmulatorAudio.stop (EmulatorAudio.stop s w).1 (EmulatorAudio.stop s w).2 =
        EmulatorAudio.stop s w ∧
      (EmulatorAudio.stop s w).1.audioRunning = false ∧
      (EmulatorAudio.stop s w).1.activityBytes = 0 ∧
      (EmulatorAudio.stop s w).1.lastReportedBytesPerSecond = 0 ∧
      (EmulatorAudio.stop s w).1.queueBufferedMs = 0 ∧
      (EmulatorAudio.stop s w).1.queueDroppedChunks = 0 ∧
      (EmulatorAudio.stop s w).1.sampleRate = 0 ∧
      (EmulatorAudio.stop s w).1.sampleSize = 0 ∧
      (EmulatorAudio.stop s w).1.channels = 0 ∧
      (EmulatorAudio.stop s w).1.analyserPresent = false ∧
      (∀ c, c ∈ (EmulatorAudio.stop s w).1.ctx → c.state = .closed) ∧
      (EmulatorAudio.stop s w).2.pointerListener = false ∧
      (∀ id ∈ playerIntervalIds s,
        id ∉ (EmulatorAudio.stop s w).2.activeIntervals) := by
  obtain ⟨h1, h2, h3, h4, h5, h6, h7, h8, h9, h10, h11⟩ := stop_resets s w
  exact ⟨stop_stop s w, h1, h2, h3, h4, h5, h6, h7, h8, h9, h10, h11,
    stop_clears_intervals s w⟩

/-- Witness for C9: a concrete running session with live timers and listener;
the second `stop` leaves everything as the first left it. -/
theorem C9_stop_idempotent_witness :
    EmulatorAudio.stop
        (EmulatorAudio.stop
          { transport := .fallback, sampleRate := 44100, sampleSize := 16,
            channels := 2, activityBytes := 17, lastReportedBytesPerSecond := 88200,
            audioRunning := true, queueBufferedMs := 12, queueDroppedChunks := 2,
            analyserPresent := true, playbackNodePresent := true,
            activityInterval := some 0, probeInterval := some 1,
            debugInterval := none, ctx := some ⟨.running, true⟩ }
          ⟨[0, 1, 5], 6, true⟩).1
        (EmulatorAudio.stop
          { transport := .fallback, sampleRate := 44100, sampleSize := 16,
            channels := 2, activityBytes := 17, lastReportedBytesPerSecond := 88200,
            audioRunning := true, queueBufferedMs := 12, queueDroppedChunks := 2,
            analyserPresent := true, playbackNodePresent := true,
            activityInterval := some 0, probeInterval := some 1,
            debugInterval := none, ctx := some ⟨.running, true⟩ }
          ⟨[0, 1, 5], 6, true⟩).2 =
      EmulatorAudio.stop
        { transport := .fallback, sampleRate := 44100, sampleSize := 16,
          channels := 2, activityBytes := 17, lastReportedBytesPerSecond := 88200,
          audioRunning := true, queueBufferedMs := 12, queueDroppedChunks := 2,
          analyserPresent := true, playbackNodePresent := true,
          activityInterval := some 0, probeInterval := some 1,
          debugInterval := none, ctx := some ⟨.running, true⟩ }
        ⟨[0, 1, 5], 6, true⟩ :=
  (C9_stop_idempotent
    { transport := .fallback, sampleRate := 44100, sampleSize := 16,
      channels := 2, activityBytes := 17, lastReportedBytesPerSecond := 88200,
      audioRunning := true, queueBufferedMs := 12, queueDroppedChunks := 2,
      analyserPresent := true, playbackNodePresent := true,
      activityInterval := some 0, probeInterval := some 1,
      debugInterval := none, ctx := some ⟨.running, true⟩ }
    ⟨[0, 1, 5], 6, true⟩).1

/-- The dropped-audio estimate exactly as claim C4 words it: for the shared
transport the instantaneous ring occupancy in bytes converted via the
declared format's bytes-per-second, and for the fallback transport the
producer side's current virtual occupancy estimate in bytes converted the
same way. Stated for comparison against `EmulatorAudio.flush`, which is
translated from the source (and which, for the fallback transport, actually
returns the last renderer-reported `bufferedMs` instead). -/
def specFlushDroppedMs (worker : FallbackEmulatorWorkerAudio)
    (s : PlayerState) : ℚ :=
  match s.transport with
  | .shared _ => EmulatorAudio.currentBufferedMs s
  | .fallback =>
      ((worker.estimatedBufferedBytes : ℚ) /
          ((s.sampleRate * Nat.max 1 (s.sampleSize >>> 3) * s.channels : Nat) : ℚ)) *
        1000

/-- A concrete fallback-transport player session: format 44100 Hz × 16 bit ×
2 channels (176400 bytes/second), last renderer-reported `bufferedMs` of
500, and 3 dropped chunks on record. -/
def fbPlayer : PlayerState :=
  { transport := .fallback, sampleRate := 44100, sampleSize := 16,
    channels := 2, activityBytes := 0, lastReportedBytesPerSecond := 0,
    audioRunning := true, queueBufferedMs := 500, queueDroppedChunks := 3,
    analyserPresent := true, playbackNodePresent := true,
    activityInterval := some 0, probeInterval := some 1,
    debugInterval := none, ctx := some ⟨.running, false⟩ }

/-- C4 counterexample: with the fallback transport, a producer-side virtual
estimate of 176400 bytes (exactly 1000 ms at the declared 176400
bytes/second) and a last renderer-reported `bufferedMs` of 500, `flush()`
returns 500 — the relayed renderer figure — and not the 1000 ms that the
claim's "current virtual estimate in bytes converted via the declared
format's bytes-per-second" prescribes. -/
theorem C4_flush_counterexample :
    (EmulatorAudio.flush fbPlayer).2.1 = 500 ∧
      specFlushDroppedMs ⟨176400, 176400, 0⟩ fbPlayer = 1000 ∧
      (EmulatorAudio.flush fbPlayer).2.1 ≠
        specFlushDroppedMs ⟨176400, 176400, 0⟩ fbPlayer := by
  refine ⟨?_, ?_, ?_⟩ <;>
    norm_num [EmulatorAudio.flush, EmulatorAudio.resetAudioBuffer,
      EmulatorAudio.probeSource, specFlushDroppedMs, fbPlayer,
      Nat.shiftRight_eq_div_pow]

/-- C4 (amended): `flush()` returns `max(0, x)` — hence a value `≥ 0` — where
`x` is the instantaneous ring occupancy converted via the declared format's
bytes-per-second for the shared transport, and the last renderer-reported
`bufferedMs` (not the producer side's virtual estimate) for the fallback
transport; it then resets the UI-side buffer (ring occupancy drops to zero;
the fallback posts a reset message to the renderer), zeroes the relayed
`bufferedMs`, and emits a queue-stats notification with `bufferedMs = 0`;
it returns 0 when nothing was buffered. -/
theorem C4_flush_amended (s : PlayerState) :
    (EmulatorAudio.flush s).2.1 =
        max 0 (if EmulatorAudio.probeSource s = .fallback then s.queueBufferedMs
               else EmulatorAudio.currentBufferedMs s) ∧
      0 ≤ (EmulatorAudio.flush s).2.1 ∧
      (EmulatorAudio.flush s).1.queueBufferedMs = 0 ∧
      EmulatorAudio.currentAudioBufferByteLength (EmulatorAudio.flush s).1 = 0 ∧
      (EmulatorAudio.probeSource s = .fallback →
        Effect.postResetToRenderer ∈ (EmulatorAudio.flush s).2.2) ∧
      Effect.notifyQueueStats
          { bufferedMs := 0, droppedChunks := s.queueDroppedChunks,
            mode := EmulatorAudio.probeSource s } ∈
        (EmulatorAudio.flush s).2.2 ∧
      ((if EmulatorAudio.probeSource s = .fallback then s.queueBufferedMs
        else EmulatorAudio.currentBufferedMs s) = 0 →
        (EmulatorAudio.flush s).2.1 = 0) := by
  obtain ⟨tr, sr, ss, ch, ab, lr, ar, qb, qd, anp, pnp, ai, pi, di, cx⟩ := s
  cases tr with
  | shared ring =>
      refine ⟨?_, ?_, ?_, ?_, ?_, ?_, ?_⟩ <;>
          simp [EmulatorAudio.flush, EmulatorAudio.resetAudioBuffer,
            EmulatorAudio.probeSource, EmulatorAudio.currentAudioBufferByteLength,
            RingBuf.pop, RingBuf.availableRead, le_max_left] <;>
        (intro h0; simp [h0])
  | fallback =>
      refine ⟨?_, ?_, ?_, ?_, ?_, ?_, ?_⟩ <;>
          simp [EmulatorAudio.flush, EmulatorAudio.resetAudioBuffer,
            EmulatorAudio.probeSource, EmulatorAudio.currentAudioBufferByteLength,
            le_max_left] <;>
        (intro h0; simp [h0])

/-- Witness for C4 (amended): the amended theorem evaluated on the concrete
fallback session `fbPlayer`. -/
theorem C4_flush_amended_witness :
    (EmulatorAudio.flush fbPlayer).2.1 =
        max 0 (if EmulatorAudio.probeSource fbPlayer = .fallback then
                 fbPlayer.queueBufferedMs
               else EmulatorAudio.currentBufferedMs fbPlayer) ∧
      0 ≤ (EmulatorAudio.flush fbPlayer).2.1 ∧
      (EmulatorAudio.flush fbPlayer).1.queueBufferedMs = 0 ∧
      EmulatorAudio.currentAudioBufferByteLength (EmulatorAudio.flush fbPlayer).1 = 0 ∧
      (EmulatorAudio.probeSource fbPlayer = .fallback →
        Effect.postResetToRenderer ∈ (EmulatorAudio.flush fbPlayer).2.2) ∧
      Effect.notifyQueueStats
          { bufferedMs := 0, droppedChunks := fbPlayer.queueDroppedChunks,
            mode := EmulatorAudio.probeSource fbPlayer } ∈
        (EmulatorAudio.flush fbPlayer).2.2 ∧
      ((if EmulatorAudio.probeSource fbPlayer = .fallback then
          fbPlayer.queueBufferedMs
        else EmulatorAudio.currentBufferedMs fbPlayer) = 0 →
        (EmulatorAudio.flush fbPlayer).2.1 = 0) :=
  C4_flush_amended fbPlayer

/-- C10: the queue-stats notification emitted by `flush()` carries
`bufferedMs = 0`, the dropped-chunk counter at its last recorded value, and
the active transport tag; `flush` clears only the buffered-occupancy state
and never resets the dropped-chunk counter. The emitted effect list is
characterized exactly: an optional renderer reset followed by that one
notification. -/
theorem C10_flush_keeps_droppedChunks (s : PlayerState) :
    (EmulatorAudio.flush s).2.2 =
        (if EmulatorAudio.probeSource s = .fallback then
           [Effect.postResetToRenderer]
         else []) ++
          [.notifyQueueStats
            { bufferedMs := 0
              droppedChunks := s.queueDroppedChunks
              mode := EmulatorAudio.probeSource s }] ∧
      (EmulatorAudio.flush s).1.queueDroppedChunks = s.queueDroppedChunks := by
  obtain ⟨tr, sr, ss, ch, ab, lr, ar, qb, qd, anp, pnp, ai, pi, di, cx⟩ := s
  cases tr <;>
    simp [EmulatorAudio.flush, EmulatorAudio.resetAudioBuffer,
      EmulatorAudio.probeSource]

end InfiniteMacAudio
